import Mathlib

/-!
Shallow embedding of the signals-agent core (proposal validation, activation
orchestration, activation lifecycle, AI ranking with deterministic fallback),
translated from the Python sources:
  services/proposal_validator.py, services/activation_service.py,
  services/status_simulator.py, services/ai_ranking.py, api_models.py.

Modelling conventions:
- SQLite tables become Lean lists of row structures; `SELECT DISTINCT`
  becomes `List.dedup`; a Python `set` becomes a duplicate-free
  `List String`, set intersection becomes `List.inter` (membership-equal to
  Python's; Python's set iteration order is unspecified, so all set-level
  statements are phrased via membership).
- ISO-8601 timestamps produced by `datetime.now().isoformat()` are totally
  ordered strings; they are embedded as `Int` seconds, on which the string
  comparison used by the code agrees with the numeric one; `timedelta(days=d)`
  is `d * 86400`.
- Python floats in [0,100] (coverage) and [0,1] (scores) are embedded as
  `Rat`; no NaN/Inf is constructible through the pydantic bounds.
- pydantic model construction is embedded as a boolean check of the declared
  field constraints and validators; a failing construction (pydantic raises
  ValidationError) is an `Except.error`/`none` at the use site.
- `str.lower()` is embedded as an ASCII case map on the character data.
- Logging, uuid request ids and the debug-only report are I/O with no effect
  on the returned data and are dropped.
-/

/-- ASCII lowering of one character (the case `str.lower()` distinguishes
for the platform-name whitelist, which is ASCII-only). -/
def lowerChar (c : Char) : Char :=
  if 65 ≤ c.toNat ∧ c.toNat ≤ 90 then Char.ofNat (c.toNat + 32) else c

/-- `str.lower()` on the character data. -/
def lowerStr (s : String) : String := String.mk (s.data.map lowerChar)

/-- Python's `needle in haystack` substring test, on character data. -/
def listInfixOf : List Char → List Char → Bool
  | pat, [] => pat.isEmpty
  | pat, c :: rest => pat.isPrefixOf (c :: rest) || listInfixOf pat rest

/-- Python truthiness of an optional string field (`None` and `""` are
falsy), used by the activation-target checks. -/
def optTruthy : Option String → Bool
  | none => false
  | some s => !s.isEmpty

/-- One row of the `platform_deployments` table (the columns the core
reads: signal id, platform, liveness flag). -/
structure DeploymentRow where
  signal_id : String
  platform : String
  is_live : Bool
deriving DecidableEq

/-- The store as the core reads it: `signal_segments` ids and
`platform_deployments` rows. -/
structure DB where
  segments : List String
  deployments : List DeploymentRow
deriving DecidableEq

/-- `SELECT DISTINCT platform FROM platform_deployments WHERE
signals_agent_segment_id = ? AND is_live = 1` — the live-platform set of a
signal id, as a duplicate-free list. -/
def livePlatforms (db : DB) (sid : String) : List String :=
  ((db.deployments.filter (fun r => r.signal_id == sid && r.is_live)).map
    (fun r => r.platform)).dedup

/-- api_models.SignalMatch (the fields the core reads). -/
structure SignalMatch where
  id : String
  name : String
  provider : String
  coverage_percentage : Rat
  price : Rat
  allowed_platforms : List String
  description : Option String
  signal_type : String
  catalog_access : String
  valid : Bool
deriving DecidableEq

/-- api_models.Proposal (the fields the core reads/writes). `logic` is a
plain string in the embedding; the pydantic `Literal["OR"]` restriction is
part of `Proposal.pydantic_ok` below. -/
structure Proposal where
  id : String
  name : String
  signal_ids : List String
  logic : String
  platforms : List String
  valid : Bool
  validation_errors : Option (List String)
  score : Option Rat
  reasoning : Option String
deriving DecidableEq

/-- The platform whitelist shared by the pydantic platform validators. -/
def validPlatformNames : List String :=
  ["index-exchange", "the-trade-desk", "openx", "pubmatic",
   "dv360", "tradedesk", "amazon", "google-ads"]

/-- pydantic construction of api_models.Proposal: the Field constraints
(name 1..200 chars, signal_ids 1..10 items, platforms ≥ 1 item, score in
[0,1], reasoning ≤ 1000 chars) plus the `validate_signal_ids` (non-empty,
unique), `validate_platforms` (whitelisted names, case-insensitive) and
`validate_proposal_logic` / `Literal["OR"]` (logic = "OR") validators.
Constructing `Proposal(...)` in Python succeeds iff this returns true;
otherwise pydantic raises a ValidationError. -/
def Proposal.pydantic_ok (p : Proposal) : Bool :=
  decide (1 ≤ p.name.length) && decide (p.name.length ≤ 200) &&
  !p.signal_ids.isEmpty && decide (p.signal_ids.length ≤ 10) &&
  decide p.signal_ids.Nodup &&
  (p.logic == "OR") &&
  !p.platforms.isEmpty &&
  p.platforms.all (fun q => validPlatformNames.contains (lowerStr q)) &&
  (match p.score with
   | none => true
   | some x => decide ((0 : Rat) ≤ x) && decide (x ≤ 1)) &&
  (match p.reasoning with
   | none => true
   | some t => decide (t.length ≤ 1000))

/-- pydantic construction of api_models.SignalMatch: name 1..200 chars,
provider 1..100 chars, coverage in [0,100], price ≥ 0, allowed_platforms
≥ 1 item with whitelisted names, description ≤ 500 chars. -/
def SignalMatch.pydantic_ok (s : SignalMatch) : Bool :=
  decide (1 ≤ s.name.length) && decide (s.name.length ≤ 200) &&
  decide (1 ≤ s.provider.length) && decide (s.provider.length ≤ 100) &&
  decide ((0 : Rat) ≤ s.coverage_percentage) &&
  decide (s.coverage_percentage ≤ 100) &&
  decide ((0 : Rat) ≤ s.price) &&
  !s.allowed_platforms.isEmpty &&
  s.allowed_platforms.all (fun q => validPlatformNames.contains (lowerStr q)) &&
  (match s.description with
   | none => true
   | some t => decide (t.length ≤ 500))

/-- api_models.ActivationRequest (principal id, the two optional targets,
requested platforms). The pydantic Field constraint `platforms min_items=1`
and the `validate_activation_target` model validator are separate checks
below. -/
structure ActivationRequest where
  segment_id : Option String
  proposal_id : Option String
  principal_id : String
  platforms : List String
deriving DecidableEq

/-- `ActivationRequest.validate_activation_target` (pydantic model
validator): rejects a request with neither target set or with both set
(Python truthiness, so `None` and `""` both count as unset); a raise here
surfaces as a pydantic ValidationError and the request value is never
constructed. -/
def ActivationRequest.validate_activation_target (r : ActivationRequest) :
    Except String ActivationRequest :=
  if !optTruthy r.segment_id && !optTruthy r.proposal_id then
    Except.error ("Either segment_id or proposal_id must be provided")
  else if optTruthy r.segment_id && optTruthy r.proposal_id then
    Except.error ("Cannot provide both segment_id and proposal_id")
  else Except.ok r

/-! ## ProposalValidator (services/proposal_validator.py) -/

/-- Failure reason recorded by rule 1 (signal-id existence). -/
def errExist : String := "One or more signal IDs do not exist in database"

/-- Failure reason recorded by rule 2 (platform unity). -/
def errUnity : String := "Signals do not share any common decisioning platforms"

/-- Failure reason recorded by rule 3 (OR-only logic). -/
def errLogic : String := "Only OR logic is allowed"

/-- Failure reason recorded by rule 4 (required metadata). -/
def errMeta : String := "Required metadata is missing"

/-- `_validate_signal_ids_exist`: every signal id has a row in
`signal_segments`. -/
def validate_signal_ids_exist (db : DB) (signal_ids : List String) : Bool :=
  signal_ids.all (fun sid => db.segments.contains sid)

/-- `_validate_platform_unity`: the per-signal live-platform sets are
collected in order and intersected; an empty id list yields the empty set
(the `if all_platforms` guard before `set.intersection(*all_platforms)`). -/
def validate_platform_unity (db : DB) (signal_ids : List String) : List String :=
  match signal_ids.map (livePlatforms db) with
  | [] => []
  | s :: rest => rest.foldl (fun a b => a ∩ b) s

/-- `_validate_required_metadata`: the hasattr/None probes of id, name,
signal_ids, logic, platforms cannot fail on the non-optional modelled
fields; the residual checks are non-empty signal_ids and non-empty
platforms. -/
def validate_required_metadata (p : Proposal) : Bool :=
  !p.signal_ids.isEmpty && !p.platforms.isEmpty

/-- `_validate_single_proposal`: applies the four rules without
short-circuiting, mutating `platforms` to the computed intersection when it
is non-empty (rule 4 then sees the mutated proposal, as in the source, where
the mutation happens before `_validate_required_metadata` runs). Returns
(collected failure reasons, proposal after mutation). -/
def validate_single_proposal (db : DB) (p : Proposal) : List String × Proposal :=
  let e1 : List String :=
    if validate_signal_ids_exist db p.signal_ids then [] else [errExist]
  let common := validate_platform_unity db p.signal_ids
  let p1 : Proposal := if common.isEmpty then p else { p with platforms := common }
  let e2 : List String := if common.isEmpty then [errUnity] else []
  let e3 : List String := if p.logic == "OR" then [] else [errLogic]
  let e4 : List String := if validate_required_metadata p1 then [] else [errMeta]
  (e1 ++ e2 ++ e3 ++ e4, p1)

/-- `ProposalValidator.validate`: per-proposal validation in input order;
zero failures appends to the valid list, otherwise the proposal is marked
invalid, its reasons attached, and appended to the invalid list. The report
(uuid, counts, timestamps, debug info) is I/O-only and dropped. -/
def ProposalValidator.validate (db : DB) : List Proposal → List Proposal × List Proposal
  | [] => ([], [])
  | p :: rest =>
    let res := validate_single_proposal db p
    let tail := ProposalValidator.validate db rest
    if res.1.isEmpty then (res.2 :: tail.1, tail.2)
    else (tail.1, { res.2 with valid := false, validation_errors := some res.1 } :: tail.2)

/-! ## AIRankingService (services/ai_ranking.py) -/

/-- Python's stable `sorted(signals, key=coverage, reverse=True)`:
insertion placing each earlier element before later elements of equal or
smaller key reproduces the stable descending order. -/
def insertDesc (s : SignalMatch) : List SignalMatch → List SignalMatch
  | [] => [s]
  | t :: ts =>
    if t.coverage_percentage ≤ s.coverage_percentage then s :: t :: ts
    else t :: insertDesc s ts

/-- Stable sort of signals by descending coverage percentage. -/
def sortByCoverageDesc : List SignalMatch → List SignalMatch
  | [] => []
  | s :: rest => insertDesc s (sortByCoverageDesc rest)

/-- The loop of `_fallback_ranking` over the sorted candidates: skip names
already seen; otherwise append, and stop as soon as the accumulated length
reaches `max_results` (the Python check `len(unique) >= max_results` runs
after the append). The accumulator is kept reversed. -/
def fbGo (max_results : Nat) : List SignalMatch → List String → List SignalMatch → List SignalMatch
  | [], _, acc => acc.reverse
  | s :: rest, seen, acc =>
    if seen.contains s.name then fbGo max_results rest seen acc
    else if max_results ≤ acc.length + 1 then (s :: acc).reverse
    else fbGo max_results rest (s.name :: seen) (s :: acc)

/-- `_fallback_ranking`: coverage-descending stable sort, then first-seen
name deduplication truncated at `max_results`. -/
def fallback_ranking (signals : List SignalMatch) (max_results : Nat) : List SignalMatch :=
  fbGo max_results (sortByCoverageDesc signals) [] []

/-- Python's `{s.id: s for s in signals}` lookup: the last signal with a
given id wins. -/
def signalById (signals : List SignalMatch) (sid : String) : Option SignalMatch :=
  signals.reverse.find? (fun s => s.id == sid)

/-- The loop of `_reorder_signals`: keep only ids present in the signal
map, first occurrence per distinct name; unranked candidates are never
backfilled. -/
def reorderGo (signals : List SignalMatch) :
    List String → List String → List SignalMatch → List SignalMatch
  | [], _, acc => acc.reverse
  | sid :: rest, seen, acc =>
    match signalById signals sid with
    | none => reorderGo signals rest seen acc
    | some s =>
      if seen.contains s.name then reorderGo signals rest seen acc
      else reorderGo signals rest (s.name :: seen) (s :: acc)

/-- `_reorder_signals`. -/
def reorder_signals (signals : List SignalMatch) (ranked_ids : List String) : List SignalMatch :=
  reorderGo signals ranked_ids [] []

/-- Zero-padded `%03d` formatting used for fallback proposal ids. -/
def pad3 (n : Nat) : String :=
  if n < 10 then "00" ++ toString n
  else if n < 100 then "0" ++ toString n
  else toString n

/-- pydantic construction of a Proposal value: `Proposal(...)` returns the
value or raises a ValidationError. -/
def Proposal.construct (p : Proposal) : Except String Proposal :=
  if p.pydantic_ok then Except.ok p else Except.error ("pydantic ValidationError")

/-- The loop of `_fallback_proposals`: for each signal (by enumeration
index), if its name is unseen and fewer than `max_proposals` proposals were
emitted, construct the singleton fallback proposal; the unguarded pydantic
construction can raise, which propagates out of the loop. -/
def fpGo (max_proposals : Nat) :
    List SignalMatch → Nat → List String → List Proposal → Except String (List Proposal)
  | [], _, _, acc => Except.ok acc.reverse
  | s :: rest, i, seen, acc =>
    if !seen.contains s.name && decide (acc.length < max_proposals) then
      match Proposal.construct
        { id := "fallback_proposal_" ++ pad3 (i + 1),
          name := s.name ++ " - Fallback",
          signal_ids := [s.id],
          logic := "OR",
          platforms := s.allowed_platforms,
          valid := true,
          validation_errors := none,
          score := some ((3 : Rat) / 5),
          reasoning := some ("Fallback proposal for " ++ s.name) } with
      | Except.error e => Except.error e
      | Except.ok p => fpGo max_proposals rest (i + 1) (s.name :: seen) (p :: acc)
    else fpGo max_proposals rest (i + 1) seen acc

/-- `_fallback_proposals`: singleton fallback proposals (score 0.6), one per
distinct signal name, up to `max_proposals`. -/
def fallback_proposals (signals : List SignalMatch) (max_proposals : Nat) :
    Except String (List Proposal) :=
  fpGo max_proposals signals 0 [] []

/-- The generative collaborator boundary: availability flag, the blocking
single-attempt text exchange (`Except.error` = transport/SDK exception), and
the prompt serialization / response parsing subroutines of the service
(`_create_ranking_prompt`, `_parse_ranking_response`,
`_create_proposal_prompt`, `_parse_proposal_response`), which are modelled
as opaque parameters — all theorems below quantify over them. The parsers
catch their own exceptions in the source and return a list, so they are
total here. -/
structure AIEnv where
  is_available : Bool
  respond : String → Except String String
  ranking_prompt : String → List SignalMatch → Nat → String
  parse_ranking : String → List String
  proposal_prompt : String → List SignalMatch → Nat → String
  parse_proposals : String → List SignalMatch → List Proposal

/-- `AIRankingService.rank_signals`: unavailable collaborator, a raised
exception, or an unparseable/empty ranking each fall back to the
deterministic coverage ranking tagged "fallback"; a parsed non-empty id list
reorders the candidates, truncated to `max_results`, tagged "ai_ranking". -/
def rank_signals (env : AIEnv) (query : String) (candidates : List SignalMatch)
    (max_results : Nat) : List SignalMatch × String :=
  if !env.is_available then (fallback_ranking candidates max_results, "fallback")
  else
    match env.respond (env.ranking_prompt query candidates max_results) with
    | Except.error _ => (fallback_ranking candidates max_results, "fallback")
    | Except.ok text =>
      let ids := env.parse_ranking text
      if ids.isEmpty then (fallback_ranking candidates max_results, "fallback")
      else ((reorder_signals candidates ids).take max_results, "ai_ranking")

/-- `AIRankingService.generate_proposals`: unavailable collaborator, a
raised exception, or an unparseable/empty proposal list each fall back to
`_fallback_proposals` tagged "fallback" (whose own pydantic construction is
unguarded and may raise, i.e. return `Except.error`); a parsed non-empty
proposal list is returned tagged "ai_generation". -/
def generate_proposals (env : AIEnv) (query : String) (ranked : List SignalMatch)
    (max_proposals : Nat) : Except String (List Proposal × String) :=
  if !env.is_available then
    (fallback_proposals ranked max_proposals).map (fun ps => (ps, "fallback"))
  else
    match env.respond (env.proposal_prompt query ranked max_proposals) with
    | Except.error _ =>
      (fallback_proposals ranked max_proposals).map (fun ps => (ps, "fallback"))
    | Except.ok text =>
      let ps := env.parse_proposals text ranked
      if ps.isEmpty then
        (fallback_proposals ranked max_proposals).map (fun ps => (ps, "fallback"))
      else Except.ok (ps, "ai_generation")

/-! ## ActivationService (services/activation_service.py) -/

/-- One row of the `contexts` table. `completed_at` is NULL until a
terminal transition writes it. -/
structure ContextRow where
  context_id : String
  principal_id : String
  context_type : String
  status : String
  metadata : String
  created_at : Int
  expires_at : Int
  completed_at : Option Int
deriving DecidableEq

/-- Environment of the activation service: the signal store, the optional
`proposals` table (raw comma-separated signal_ids column by proposal id),
and the clock. -/
structure ActEnv where
  db : DB
  proposals_table : String → Option String
  now : Int

/-- `_get_common_platforms_for_signals`: empty id list short-circuits to
the empty set, otherwise the same per-signal live-platform intersection as
the validator's platform-unity rule. -/
def common_live_platforms (db : DB) (ids : List String) : List String :=
  if ids.isEmpty then [] else validate_platform_unity db ids

/-- `_segment_exists`: id lookup in `signal_segments`. -/
def segment_exists (db : DB) (sid : String) : Bool :=
  db.segments.contains sid

/-- The signal-id heuristic inside `_get_proposal_by_id`: ids starting with
"proposal_" map to hard-coded signal lists when they contain "001" or
"002", otherwise to the split `signal_ids` column of a `proposals` table
row (an empty column splits to the empty list); anything else is unknown. -/
def proposal_signal_ids (env : ActEnv) (pid : String) : Option (List String) :=
  if (("proposal_").toList).isPrefixOf pid.toList then
    if listInfixOf (("001").toList) pid.toList then some (["signal_001", "signal_002"])
    else if listInfixOf (("002").toList) pid.toList then some (["signal_003"])
    else
      match env.proposals_table pid with
      | some raw => some (if raw.isEmpty then [] else raw.splitOn (","))
      | none => none
  else none

/-- `_get_proposal_by_id`: reconstructs a Proposal from the heuristic signal
ids and their common live platforms; an empty intersection, or a pydantic
ValidationError during `Proposal(...)` (caught by the blanket except),
yields None. -/
def get_proposal_by_id (env : ActEnv) (pid : String) : Option Proposal :=
  match proposal_signal_ids env pid with
  | none => none
  | some ids =>
    let common := common_live_platforms env.db ids
    if common.isEmpty then none
    else
      let p : Proposal :=
        { id := pid, name := "Proposal " ++ pid, signal_ids := ids, logic := "OR",
          platforms := common, valid := true, validation_errors := none,
          score := none, reasoning := none }
      if p.pydantic_ok then some p else none

/-- `_process_proposal_activation`: look up the proposal, require validity,
recompute the common live platforms of its signals, fail when empty. -/
def process_proposal_activation (env : ActEnv) (pid : String) :
    Except String (String × String × List String) :=
  match get_proposal_by_id env pid with
  | none => Except.error ("Proposal not found: " ++ pid)
  | some proposal =>
    if !proposal.valid then Except.error ("Proposal is not valid: " ++ pid)
    else
      let allowed := common_live_platforms env.db proposal.signal_ids
      if allowed.isEmpty then
        Except.error ("No common platforms found for proposal signals")
      else Except.ok (pid, "proposal", allowed)

/-- `_process_segment_activation`: require the segment to exist and to have
a non-empty live-platform set. -/
def process_segment_activation (env : ActEnv) (sid : String) :
    Except String (String × String × List String) :=
  if !segment_exists env.db sid then Except.error ("Segment not found: " ++ sid)
  else
    let platforms := livePlatforms env.db sid
    if platforms.isEmpty then Except.error ("No platforms found for segment: " ++ sid)
    else Except.ok (sid, "segment", platforms)

/-- `_intersect_platforms`: an empty requested list returns the available
platforms unchanged; otherwise the set intersection, raising (ValueError,
surfaced as a conflict) when it is empty. -/
def intersect_platforms (available requested : List String) :
    Except String (List String) :=
  if requested.isEmpty then Except.ok available
  else
    let inter := available.dedup ∩ requested
    if inter.isEmpty then
      Except.error ("No overlap between available platforms and requested platforms")
    else Except.ok inter

/-- The metadata blob written by `_create_activation_context`. -/
def activationMetadata (target_id target_type : String) (platforms : List String) : String :=
  "\x7b\"target_id\": \"" ++ target_id ++ "\", \"target_type\": \"" ++ target_type ++
    "\", \"platforms\": " ++ toString platforms ++ "\x7d"

/-- `_create_activation_context`: generates `act_<timestamp>_<target id>`,
inserts a context row of type "activation" with status "pending", created
now, expiring in 24 hours, and no completion timestamp. -/
def create_activation_context (env : ActEnv) (store : List ContextRow)
    (principal_id target_id target_type : String) (platforms : List String) :
    String × List ContextRow :=
  let aid := "act_" ++ toString env.now ++ "_" ++ target_id
  (aid, store ++
    [{ context_id := aid, principal_id := principal_id, context_type := "activation",
       status := "pending", metadata := activationMetadata target_id target_type platforms,
       created_at := env.now, expires_at := env.now + 86400, completed_at := none }])

/-- Step 1 of `ActivationService.process_activation`: resolve the target
(proposal first, then segment, Python truthiness). -/
def resolve_activation_target (env : ActEnv) (r : ActivationRequest) :
    Except String (String × String × List String) :=
  if optTruthy r.proposal_id then process_proposal_activation env (r.proposal_id.getD "")
  else if optTruthy r.segment_id then process_segment_activation env (r.segment_id.getD "")
  else Except.error ("Either proposal_id or segment_id must be provided")

/-- `ActivationService.process_activation`: resolve the target, intersect
with the requested platforms, and persist an activation context; every
raise leaves the store untouched. The principal-access check between steps
1 and 3 performs reads and logging only (its own exceptions are swallowed)
and has no observable effect. -/
def process_activation (env : ActEnv) (store : List ContextRow) (r : ActivationRequest) :
    Except String (String × List String) × List ContextRow :=
  match resolve_activation_target env r with
  | Except.error e => (Except.error e, store)
  | Except.ok (target_id, target_type, allowed) =>
    match intersect_platforms allowed r.platforms with
    | Except.error e => (Except.error e, store)
    | Except.ok final =>
      if final.isEmpty then
        (Except.error ("No valid platforms available for " ++ target_type ++ " " ++ target_id),
         store)
      else
        let res := create_activation_context env store r.principal_id target_id target_type final
        (Except.ok (res.1, final), res.2)

/-- The endpoint-level composition: pydantic request validation
(`validate_activation_target`) runs before the service ever sees the
request, so a rejected request reaches no store operation. -/
def activate (env : ActEnv) (store : List ContextRow) (r : ActivationRequest) :
    Except String (String × List String) × List ContextRow :=
  match r.validate_activation_target with
  | Except.error e => (Except.error e, store)
  | Except.ok r1 => process_activation env store r1

/-! ## StatusSimulator (services/status_simulator.py) -/

/-- `StatusSimulator.status_flow`: the fixed transition table; unknown
statuses are absent from the dict (`dict.get` returns None). -/
def status_flow (s : String) : Option String :=
  if s == "pending" then some ("in_progress")
  else if s == "in_progress" then some ("completed")
  else if s == "completed" then some ("completed")
  else if s == "failed" then some ("failed")
  else if s == "expired" then some ("expired")
  else none

/-- The activation-details dictionary built by `_get_activation_details`:
`updated_at` is `completed_at or created_at`. -/
structure ActivationDetails where
  activation_id : String
  principal_id : String
  context_type : String
  status : String
  metadata : String
  created_at : Int
  updated_at : Int
  completed_at : Option Int
deriving DecidableEq

/-- `_get_activation_details`. -/
def get_activation_details (r : ContextRow) : ActivationDetails :=
  { activation_id := r.context_id, principal_id := r.principal_id,
    context_type := r.context_type, status := r.status, metadata := r.metadata,
    created_at := r.created_at, updated_at := r.completed_at.getD r.created_at,
    completed_at := r.completed_at }

/-- The row update performed by the UPDATE statements of
`simulate_status_transition`: entering completed/failed also writes the
completion timestamp; any other status writes the status only. -/
def advanceRow (now : Int) (next : String) (r : ContextRow) : ContextRow :=
  if next == "completed" || next == "failed" then
    { r with status := next, completed_at := some now }
  else { r with status := next }

/-- `StatusSimulator.simulate_status_transition` (the *advance*
operation): look up the row, compute the next status from the table;
a missing or self-mapping next status returns the current details with no
write; otherwise update every row with this context id and return the
re-selected row's details. -/
def simulate_status_transition (now : Int) (store : List ContextRow) (aid : String) :
    Option ActivationDetails × List ContextRow :=
  match store.find? (fun r => r.context_id == aid) with
  | none => (none, store)
  | some row =>
    match status_flow row.status with
    | none => (some (get_activation_details row), store)
    | some next =>
      if next == row.status then (some (get_activation_details row), store)
      else
        let store2 := store.map (fun r =>
          if r.context_id == aid then advanceRow now next r else r)
        match store2.find? (fun r => r.context_id == aid) with
        | some row2 => (some (get_activation_details row2), store2)
        | none => (none, store2)

/-- The deletion predicate of `cleanup_expired_activations`: contexts of
type "activation" created strictly before the cutoff
`now - timedelta(days=7)`, regardless of status. -/
def reapPred (now : Int) (r : ContextRow) : Bool :=
  r.context_type == "activation" && decide (r.created_at < now - 7 * 86400)

/-- `cleanup_expired_activations` (the *reap* operation): deletes every
matching row and returns the rowcount together with the surviving store. -/
def cleanup_expired_activations (now : Int) (store : List ContextRow) :
    Nat × List ContextRow :=
  ((store.filter (reapPred now)).length, store.filter (fun r => !reapPred now r))

/-! ## Helper lemmas: platform intersection and the validator batch -/

theorem mem_foldl_inter (x : String) (l : List (List String)) : ∀ (s : List String),
    (x ∈ l.foldl (fun a b => a ∩ b) s ↔ x ∈ s ∧ ∀ t ∈ l, x ∈ t) := by
  induction l with
  | nil => intro s; simp
  | cons hd tl ih =>
    intro s
    rw [List.foldl_cons, ih]
    simp only [List.mem_inter_iff, List.mem_cons]
    constructor
    · rintro ⟨⟨hs, hhd⟩, htl⟩
      exact ⟨hs, fun t ht => by rcases ht with rfl | ht; exacts [hhd, htl t ht]⟩
    · rintro ⟨hs, hall⟩
      exact ⟨⟨hs, hall hd (Or.inl rfl)⟩, fun t ht => hall t (Or.inr ht)⟩

theorem mem_validate_platform_unity (db : DB) (ids : List String) (h : ids ≠ [])
    (x : String) :
    x ∈ validate_platform_unity db ids ↔ ∀ sid ∈ ids, x ∈ livePlatforms db sid := by
  cases ids with
  | nil => exact absurd rfl h
  | cons a l =>
    simp only [validate_platform_unity, List.map_cons]
    rw [mem_foldl_inter]
    constructor
    · rintro ⟨ha, hrest⟩
      intro sid hsid
      rcases List.mem_cons.mp hsid with rfl | hsid
      · exact ha
      · exact hrest (livePlatforms db sid) (List.mem_map_of_mem (livePlatforms db) hsid)
    · intro hall
      refine ⟨hall a (List.mem_cons_self a l), ?_⟩
      intro t ht
      obtain ⟨sid, hsid, rfl⟩ := List.mem_map.mp ht
      exact hall sid (List.mem_cons_of_mem a hsid)

theorem validate_platform_unity_nil (db : DB) : validate_platform_unity db [] = [] := rfl

theorem mem_errExist_iff (db : DB) (p : Proposal) :
    errExist ∈ (validate_single_proposal db p).1 ↔
      validate_signal_ids_exist db p.signal_ids = false := by
  simp only [validate_single_proposal]
  split_ifs <;> simp_all [errExist, errUnity, errLogic, errMeta]

theorem mem_errUnity_iff (db : DB) (p : Proposal) :
    errUnity ∈ (validate_single_proposal db p).1 ↔
      (validate_platform_unity db p.signal_ids).isEmpty = true := by
  simp only [validate_single_proposal]
  split_ifs <;> simp_all [errExist, errUnity, errLogic, errMeta]

theorem mem_errLogic_iff (db : DB) (p : Proposal) :
    errLogic ∈ (validate_single_proposal db p).1 ↔ ¬ p.logic = "OR" := by
  simp only [validate_single_proposal]
  split_ifs <;> simp_all [errExist, errUnity, errLogic, errMeta]

theorem mem_errMeta_iff (db : DB) (p : Proposal) :
    errMeta ∈ (validate_single_proposal db p).1 ↔
      validate_required_metadata (validate_single_proposal db p).2 = false := by
  simp only [validate_single_proposal]
  split_ifs <;> simp_all [errExist, errUnity, errLogic, errMeta]

theorem validate_mem_valid_iff (db : DB) (ps : List Proposal) (p : Proposal) :
    p ∈ (ProposalValidator.validate db ps).1 ↔
      ∃ q ∈ ps, (validate_single_proposal db q).1 = [] ∧
        (validate_single_proposal db q).2 = p := by
  induction ps with
  | nil => simp [ProposalValidator.validate]
  | cons q rest ih =>
    simp only [ProposalValidator.validate]
    split_ifs with h
    · rw [List.isEmpty_iff] at h
      simp only [List.mem_cons, ih, List.mem_cons]
      constructor
      · rintro (rfl | ⟨q1, hq1, h1, h2⟩)
        · exact ⟨q, Or.inl rfl, h, rfl⟩
        · exact ⟨q1, Or.inr hq1, h1, h2⟩
      · rintro ⟨q1, hq1 | hq1, h1, h2⟩
        · subst hq1; exact Or.inl h2.symm
        · exact Or.inr ⟨q1, hq1, h1, h2⟩
    · rw [Bool.not_eq_true, List.isEmpty_eq_false_iff_exists_mem] at h
      simp only [ih]
      constructor
      · rintro ⟨q1, hq1, h1, h2⟩
        exact ⟨q1, List.mem_cons_of_mem q hq1, h1, h2⟩
      · rintro ⟨q1, hq1, h1, h2⟩
        rcases List.mem_cons.mp hq1 with rfl | hq1
        · obtain ⟨e, he⟩ := h
          rw [h1] at he
          exact absurd he (List.not_mem_nil e)
        · exact ⟨q1, hq1, h1, h2⟩

theorem validate_mem_invalid_of (db : DB) (ps : List Proposal) (p : Proposal)
    (hp : p ∈ ps) (h : (validate_single_proposal db p).1 ≠ []) :
    { (validate_single_proposal db p).2 with
      valid := false
      validation_errors := some ((validate_single_proposal db p).1) }
      ∈ (ProposalValidator.validate db ps).2 := by
  induction ps with
  | nil => exact absurd hp (List.not_mem_nil p)
  | cons q rest ih =>
    simp only [ProposalValidator.validate]
    rcases List.mem_cons.mp hp with rfl | hp
    · split_ifs with hq
      · rw [List.isEmpty_iff] at hq
        exact absurd hq h
      · exact List.mem_cons_self _ _
    · split_ifs with hq
      · exact ih hp
      · exact List.mem_cons_of_mem _ (ih hp)

theorem validate_mem_valid_of (db : DB) (ps : List Proposal) (p : Proposal)
    (hp : p ∈ ps) (h : (validate_single_proposal db p).1 = []) :
    (validate_single_proposal db p).2 ∈ (ProposalValidator.validate db ps).1 :=
  (validate_mem_valid_iff db ps _).mpr ⟨p, hp, h, rfl⟩

theorem validate_length (db : DB) (ps : List Proposal) :
    (ProposalValidator.validate db ps).1.length +
      (ProposalValidator.validate db ps).2.length = ps.length := by
  induction ps with
  | nil => rfl
  | cons q rest ih =>
    simp only [ProposalValidator.validate]
    split_ifs <;> simp only [List.length_cons] <;> omega

theorem validate_single_signal_ids (db : DB) (p : Proposal) :
    (validate_single_proposal db p).2.signal_ids = p.signal_ids := by
  simp only [validate_single_proposal]
  split_ifs <;> rfl

theorem validate_single_id (db : DB) (p : Proposal) :
    (validate_single_proposal db p).2.id = p.id := by
  simp only [validate_single_proposal]
  split_ifs <;> rfl

theorem validate_single_platforms (db : DB) (p : Proposal) :
    (validate_single_proposal db p).2.platforms =
      (if (validate_platform_unity db p.signal_ids).isEmpty then p.platforms
       else validate_platform_unity db p.signal_ids) := by
  simp only [validate_single_proposal]
  split_ifs <;> rfl

/-! ## Witness fixtures for the validator claims -/

/-- Store fixture: s1 and s2 exist with live platforms P1,P2 resp. P2,P3;
g1 has a live deployment row but no signal_segments row. -/
def dbW : DB :=
  { segments := ["s1", "s2"],
    deployments := [⟨"s1", "P1", true⟩, ⟨"s1", "P2", true⟩, ⟨"s2", "P2", true⟩,
                    ⟨"s2", "P3", true⟩, ⟨"g1", "P2", true⟩] }

/-- A proposal over s1 and s2 whose generator asserted a bogus platform. -/
def pW : Proposal :=
  { id := "p1", name := "w", signal_ids := ["s1", "s2"], logic := "OR",
    platforms := ["PX"], valid := true, validation_errors := none, score := none,
    reasoning := none }

/-- `pW` after validation: platforms overwritten with the intersection. -/
def pWv : Proposal := { pW with platforms := ["P2"] }

/-- A proposal referencing the nonexistent signal id g1 (which still has a
live deployment row). -/
def pG : Proposal :=
  { id := "p2", name := "g", signal_ids := ["g1", "s2"], logic := "OR",
    platforms := ["PX"], valid := true, validation_errors := none, score := none,
    reasoning := none }

/-- A pydantic-constructible proposal. -/
def pOK : Proposal :=
  { id := "p3", name := "ok", signal_ids := ["s1"], logic := "OR",
    platforms := ["openx"], valid := true, validation_errors := none, score := none,
    reasoning := none }

/-! ## Claims C1, C4, C9, C10 -/

/-- C1: every proposal returned in the valid list by
ProposalValidator.validate has a platforms field equal, as a set, to the
intersection of the live-platform sets (is_live deployment rows) of its
constituent signal ids, regardless of the platforms the generator
originally asserted (the incoming proposal list is arbitrary). -/
theorem C1_valid_platforms_are_live_intersection (db : DB) (proposals : List Proposal)
    (p : Proposal) (hp : p ∈ (ProposalValidator.validate db proposals).1) (x : String) :
    x ∈ p.platforms ↔ ∀ sid ∈ p.signal_ids, x ∈ livePlatforms db sid := by
  obtain ⟨q, hq, h1, h2⟩ := (validate_mem_valid_iff db proposals p).mp hp
  have hU : (validate_platform_unity db q.signal_ids).isEmpty = false := by
    rcases h' : (validate_platform_unity db q.signal_ids).isEmpty with _ | _
    · rfl
    · have hmem := (mem_errUnity_iff db q).mpr h'
      rw [h1] at hmem
      exact absurd hmem (List.not_mem_nil _)
  have hplat : p.platforms = validate_platform_unity db q.signal_ids := by
    rw [← h2, validate_single_platforms, hU]
    simp
  have hsig : p.signal_ids = q.signal_ids := by
    rw [← h2, validate_single_signal_ids]
  have hne : q.signal_ids ≠ [] := by
    intro h0
    rw [h0, validate_platform_unity_nil] at hU
    simp at hU
  rw [hplat, hsig]
  exact mem_validate_platform_unity db q.signal_ids hne x

/-- C1 witness: with store dbW, the proposal pW over [s1, s2] comes back
valid as pWv with platforms rewritten to the intersection, and P2 is in it
because it is live for both signals. -/
theorem C1_witness :
    pWv ∈ (ProposalValidator.validate dbW [pW]).1 ∧
    ("P2" ∈ pWv.platforms ↔ ∀ sid ∈ pWv.signal_ids, "P2" ∈ livePlatforms dbW sid) :=
  ⟨by decide, C1_valid_platforms_are_live_intersection dbW [pW] pWv (by decide) "P2"⟩

/-- C4: for every proposal of a validated batch, each of the four rules
contributes its failure reason exactly when its condition fails (so all
applicable reasons are collected, without short-circuiting), a proposal
joins the valid list iff zero reasons were recorded, failing proposals are
returned separately with their reasons attached, and the two output lists
partition the batch. -/
theorem C4_exhaustive_validation (db : DB) (ps : List Proposal) (p : Proposal)
    (hp : p ∈ ps) :
    (errExist ∈ (validate_single_proposal db p).1 ↔
       validate_signal_ids_exist db p.signal_ids = false) ∧
    (errUnity ∈ (validate_single_proposal db p).1 ↔
       (validate_platform_unity db p.signal_ids).isEmpty = true) ∧
    (errLogic ∈ (validate_single_proposal db p).1 ↔ ¬ p.logic = "OR") ∧
    (errMeta ∈ (validate_single_proposal db p).1 ↔
       validate_required_metadata (validate_single_proposal db p).2 = false) ∧
    ((validate_single_proposal db p).1 = [] →
       (validate_single_proposal db p).2 ∈ (ProposalValidator.validate db ps).1) ∧
    ((validate_single_proposal db p).1 ≠ [] →
       { (validate_single_proposal db p).2 with
         valid := false
         validation_errors := some ((validate_single_proposal db p).1) }
         ∈ (ProposalValidator.validate db ps).2) ∧
    (∀ v ∈ (ProposalValidator.validate db ps).1,
       ∃ q ∈ ps, (validate_single_proposal db q).1 = [] ∧
         (validate_single_proposal db q).2 = v) ∧
    (ProposalValidator.validate db ps).1.length +
      (ProposalValidator.validate db ps).2.length = ps.length :=
  ⟨mem_errExist_iff db p, mem_errUnity_iff db p, mem_errLogic_iff db p,
   mem_errMeta_iff db p, validate_mem_valid_of db ps p hp,
   validate_mem_invalid_of db ps p hp,
   fun v hv => (validate_mem_valid_iff db ps v).mp hv, validate_length db ps⟩

/-- C4 witness: the proposal pG (nonexistent signal id g1) records exactly
the existence failure. -/
theorem C4_witness :
    (errExist ∈ (validate_single_proposal dbW pG).1 ↔
       validate_signal_ids_exist dbW pG.signal_ids = false) ∧
    (validate_single_proposal dbW pG).1 = [errExist] :=
  ⟨(C4_exhaustive_validation dbW [pG] pG (by decide)).1, by decide⟩

/-- C9: every pydantic-constructible Proposal value has logic "OR",
non-empty duplicate-free signal_ids of length at most 10, and non-empty
platforms; consequently the validator's "Only OR logic is allowed" and
"Required metadata is missing" failure branches are unreachable for such
values, against any store. -/
theorem C9_constructible_proposal_invariants (db : DB) (p : Proposal)
    (hp : p.pydantic_ok = true) :
    p.logic = "OR" ∧ p.signal_ids ≠ [] ∧ p.signal_ids.Nodup ∧
    p.signal_ids.length ≤ 10 ∧ p.platforms ≠ [] ∧
    errLogic ∉ (validate_single_proposal db p).1 ∧
    errMeta ∉ (validate_single_proposal db p).1 := by
  simp only [Proposal.pydantic_ok, Bool.and_eq_true] at hp
  obtain ⟨⟨⟨⟨⟨⟨⟨⟨⟨h1, h2⟩, h3⟩, h4⟩, h5⟩, h6⟩, h7⟩, h8⟩, h9⟩, h10⟩ := hp
  have hor : p.logic = "OR" := by simpa using h6
  have hsne : p.signal_ids ≠ [] := by
    intro h0
    rw [h0] at h3
    simp at h3
  have hnd : p.signal_ids.Nodup := by simpa using h5
  have hlen : p.signal_ids.length ≤ 10 := by simpa using h4
  have hpne : p.platforms ≠ [] := by
    intro h0
    rw [h0] at h7
    simp at h7
  have hmeta : validate_required_metadata (validate_single_proposal db p).2 = true := by
    unfold validate_required_metadata
    rw [validate_single_signal_ids, validate_single_platforms]
    rcases hU : (validate_platform_unity db p.signal_ids).isEmpty with _ | _
    · have hune : validate_platform_unity db p.signal_ids ≠ [] := by
        intro h0
        rw [h0] at hU
        simp at hU
      simp [hsne, hune]
    · simp [hsne, hpne]
  refine ⟨hor, hsne, hnd, hlen, hpne, ?_, ?_⟩
  · rw [mem_errLogic_iff]
    simp [hor]
  · rw [mem_errMeta_iff, hmeta]
    simp

/-- C9 witness: pOK is constructible and triggers neither branch. -/
theorem C9_witness :
    Proposal.pydantic_ok pOK = true ∧
    errLogic ∉ (validate_single_proposal dbW pOK).1 :=
  ⟨by decide, (C9_constructible_proposal_invariants dbW pOK (by decide)).2.2.2.2.2.1⟩

/-- C10: whenever the live-platform intersection of a proposal's signal
ids is non-empty the validator overwrites that proposal's platforms field
in place (same id, same signal_ids), even if the proposal fails other
rules and is returned in the invalid list; when the intersection is empty
the platforms field is left unchanged. -/
theorem C10_platform_overwrite_in_place (db : DB) (ps : List Proposal) (p : Proposal)
    (hp : p ∈ ps) :
    ((validate_platform_unity db p.signal_ids).isEmpty = false →
       (validate_single_proposal db p).2.platforms =
         validate_platform_unity db p.signal_ids) ∧
    ((validate_platform_unity db p.signal_ids).isEmpty = true →
       (validate_single_proposal db p).2.platforms = p.platforms) ∧
    (validate_single_proposal db p).2.signal_ids = p.signal_ids ∧
    (validate_single_proposal db p).2.id = p.id ∧
    ((validate_single_proposal db p).1 ≠ [] →
       { (validate_single_proposal db p).2 with
         valid := false
         validation_errors := some ((validate_single_proposal db p).1) }
         ∈ (ProposalValidator.validate db ps).2) := by
  refine ⟨?_, ?_, validate_single_signal_ids db p, validate_single_id db p,
    validate_mem_invalid_of db ps p hp⟩
  · intro h
    rw [validate_single_platforms, h]
    simp
  · intro h
    rw [validate_single_platforms, h]
    simp

/-- C10 witness: pG references the nonexistent signal id g1 (which still
has live deployment rows), comes back in the invalid list, and its
platforms field is rewritten to the non-empty intersection ["P2"]. -/
theorem C10_witness :
    (validate_single_proposal dbW pG).2.platforms = ["P2"] ∧
    ((validate_platform_unity dbW pG.signal_ids).isEmpty = false →
       (validate_single_proposal dbW pG).2.platforms =
         validate_platform_unity dbW pG.signal_ids) ∧
    { (validate_single_proposal dbW pG).2 with
      valid := false
      validation_errors := some ((validate_single_proposal dbW pG).1) }
      ∈ (ProposalValidator.validate dbW [pG]).2 :=
  ⟨by decide, (C10_platform_overwrite_in_place dbW [pG] pG (by decide)).1,
   (C10_platform_overwrite_in_place dbW [pG] pG (by decide)).2.2.2.2 (by decide)⟩

/-! ## Helper lemmas: fallback ranking -/

theorem mem_insertDesc (s x : SignalMatch) (l : List SignalMatch) :
    x ∈ insertDesc s l ↔ x = s ∨ x ∈ l := by
  induction l with
  | nil => simp [insertDesc]
  | cons t ts ih =>
    unfold insertDesc
    split
    all_goals simp only [List.mem_cons, ih]
    all_goals tauto

theorem pairwise_insertDesc (s : SignalMatch) (l : List SignalMatch)
    (h : l.Pairwise (fun a b => b.coverage_percentage ≤ a.coverage_percentage)) :
    (insertDesc s l).Pairwise
      (fun a b => b.coverage_percentage ≤ a.coverage_percentage) := by
  induction l with
  | nil => simp [insertDesc]
  | cons t ts ih =>
    rw [List.pairwise_cons] at h
    obtain ⟨ht, hts⟩ := h
    unfold insertDesc
    split
    · rename_i hle
      rw [List.pairwise_cons]
      refine ⟨?_, List.pairwise_cons.mpr ⟨ht, hts⟩⟩
      intro y hy
      rcases List.mem_cons.mp hy with rfl | hy
      · exact hle
      · exact le_trans (ht y hy) hle
    · rename_i hgt
      rw [List.pairwise_cons]
      refine ⟨?_, ih hts⟩
      intro y hy
      rcases (mem_insertDesc s y ts).mp hy with rfl | hy
      · exact le_of_lt (lt_of_not_le hgt)
      · exact ht y hy

theorem pairwise_sortByCoverageDesc (l : List SignalMatch) :
    (sortByCoverageDesc l).Pairwise
      (fun a b => b.coverage_percentage ≤ a.coverage_percentage) := by
  induction l with
  | nil => simp [sortByCoverageDesc]
  | cons s rest ih => exact pairwise_insertDesc s (sortByCoverageDesc rest) ih

theorem fbGo_sublist (m : Nat) (l : List SignalMatch) :
    ∀ (seen : List String) (acc : List SignalMatch),
      ∃ r, fbGo m l seen acc = acc.reverse ++ r ∧ r.Sublist l := by
  induction l with
  | nil =>
    intro seen acc
    exact ⟨[], by simp [fbGo], List.nil_sublist _⟩
  | cons s rest ih =>
    intro seen acc
    unfold fbGo
    split
    · obtain ⟨r, h1, h2⟩ := ih seen acc
      exact ⟨r, h1, h2.cons s⟩
    · split
      · refine ⟨[s], ?_, (List.nil_sublist rest).cons₂ s⟩
        simp
      · obtain ⟨r, h1, h2⟩ := ih (s.name :: seen) (s :: acc)
        refine ⟨s :: r, ?_, h2.cons₂ s⟩
        rw [h1]
        simp

theorem fbGo_length (m : Nat) (l : List SignalMatch) :
    ∀ (seen : List String) (acc : List SignalMatch),
      acc.length < m → (fbGo m l seen acc).length ≤ m := by
  induction l with
  | nil =>
    intro seen acc h
    simp only [fbGo, List.length_reverse]
    omega
  | cons s rest ih =>
    intro seen acc h
    unfold fbGo
    split
    · exact ih seen acc h
    · split
      · simp only [List.length_reverse, List.length_cons]
        omega
      · rename_i hbrk
        exact ih (s.name :: seen) (s :: acc) (by simp only [List.length_cons]; omega)

theorem fbGo_names_nodup (m : Nat) (l : List SignalMatch) :
    ∀ (seen : List String) (acc : List SignalMatch),
      (∀ a ∈ acc, a.name ∈ seen) → (acc.map (fun s => s.name)).Nodup →
      ((fbGo m l seen acc).map (fun s => s.name)).Nodup := by
  induction l with
  | nil =>
    intro seen acc _ h2
    simp only [fbGo, List.map_reverse, List.nodup_reverse]
    exact h2
  | cons s rest ih =>
    intro seen acc h1 h2
    unfold fbGo
    split
    · exact ih seen acc h1 h2
    · rename_i hseen
      have hs : s.name ∉ seen := fun hmem => hseen (List.elem_iff.mpr hmem)
      have hnotacc : s.name ∉ acc.map (fun a => a.name) := by
        intro hmem
        obtain ⟨a, ha, hna⟩ := List.mem_map.mp hmem
        exact hs (hna ▸ h1 a ha)
      split
      · simp only [List.map_reverse, List.nodup_reverse, List.map_cons]
        exact List.nodup_cons.mpr ⟨hnotacc, h2⟩
      · refine ih (s.name :: seen) (s :: acc) ?_ ?_
        · intro a ha
          rcases List.mem_cons.mp ha with rfl | ha
          · exact List.mem_cons_self _ _
          · exact List.mem_cons_of_mem _ (h1 a ha)
        · simp only [List.map_cons]
          exact List.nodup_cons.mpr ⟨hnotacc, h2⟩

/-! ## Witness fixtures for the ranking claims -/

/-- A constructible signal with coverage 50. -/
def sigW : SignalMatch :=
  { id := "a", name := "A", provider := "prov", coverage_percentage := 50, price := 1,
    allowed_platforms := ["openx"], description := none, signal_type := "audience",
    catalog_access := "public", valid := true }

/-- A second signal, distinct name, coverage 70. -/
def sigW2 : SignalMatch := { sigW with id := "b", name := "B", coverage_percentage := 70 }

/-- A constructible signal whose 200-character name is at the pydantic
limit; the fallback proposal name built from it exceeds the limit. -/
def sigLongName : SignalMatch := { sigW with id := "long", name := String.mk (List.replicate 200 'a') }

/-- An environment whose generative collaborator is not available. -/
def envDown : AIEnv :=
  { is_available := false, respond := fun _ => Except.error ("unreachable"),
    ranking_prompt := fun _ _ _ => "", parse_ranking := fun _ => [],
    proposal_prompt := fun _ _ _ => "", parse_proposals := fun _ _ => [] }

/-! ## Claims C6, C7 -/

/-- C7 counterexample: with max_results = 0 and a non-empty candidate list,
`_fallback_ranking` returns one element (the Python loop appends before it
checks the bound), so its length is not at most max_results. -/
theorem C7_counterexample :
    (fallback_ranking [sigW] 0).length = 1 ∧
    ¬ ((fallback_ranking [sigW] 0).length ≤ 0) := by
  decide

/-- C7 (amended: for max_results ≥ 1): the deterministic fallback ranking
of a non-empty candidate list has pairwise-distinct names, is sorted by
descending coverage percentage, has length at most max_results, and is
deterministic. -/
theorem C7_fallback_ranking_properties (signals : List SignalMatch) (m : Nat)
    (hs : signals ≠ []) (hm : 1 ≤ m) :
    ((fallback_ranking signals m).map (fun s => s.name)).Nodup ∧
    (fallback_ranking signals m).Pairwise
      (fun a b => b.coverage_percentage ≤ a.coverage_percentage) ∧
    (fallback_ranking signals m).length ≤ m ∧
    fallback_ranking signals m = fallback_ranking signals m := by
  refine ⟨?_, ?_, ?_, rfl⟩
  · exact fbGo_names_nodup m (sortByCoverageDesc signals) [] []
      (fun a ha => absurd ha (List.not_mem_nil a)) List.nodup_nil
  · obtain ⟨r, h1, h2⟩ := fbGo_sublist m (sortByCoverageDesc signals) [] []
    unfold fallback_ranking
    rw [h1]
    simp only [List.reverse_nil, List.nil_append]
    exact (pairwise_sortByCoverageDesc signals).sublist h2
  · exact fbGo_length m (sortByCoverageDesc signals) [] []
      (by simp only [List.length_nil]; omega)

/-- C7 witness: two signals, max_results 5. -/
theorem C7_witness :
    ((fallback_ranking [sigW, sigW2] 5).map (fun s => s.name)).Nodup ∧
    (fallback_ranking [sigW, sigW2] 5).Pairwise
      (fun a b => b.coverage_percentage ≤ a.coverage_percentage) ∧
    (fallback_ranking [sigW, sigW2] 5).length ≤ 5 ∧
    fallback_ranking [sigW, sigW2] 5 = fallback_ranking [sigW, sigW2] 5 :=
  C7_fallback_ranking_properties [sigW, sigW2] 5 (by decide) (by decide)

set_option maxRecDepth 8000

/-- C6 counterexample: with the collaborator unavailable (a collaborator
failure) and a single constructible signal whose name has 200 characters,
generate_proposals raises (the unguarded fallback `Proposal(...)`
construction violates the 200-character name limit with
"<name> - Fallback"), so it neither returns normally nor yields the
fallback tagged result. -/
theorem C6_counterexample :
    SignalMatch.pydantic_ok sigLongName = true ∧
    envDown.is_available = false ∧
    generate_proposals envDown ("q") [sigLongName] 5 =
      Except.error ("pydantic ValidationError") := by
  refine ⟨by decide, rfl, by rfl⟩

/-- C6 (amended: the rank-side recovery is unconditional; the generate-side
recovery holds whenever the deterministic fallback proposals themselves
construct successfully, which fails only when a fallback proposal name
exceeds the 200-character pydantic limit): every collaborator failure —
unavailable, raised exception, or unparseable/empty response — makes
rank_signals return the deterministic fallback ranking tagged "fallback"
and generate_proposals return the fallback proposals tagged "fallback". -/
theorem C6_collaborator_failure_fallback (env : AIEnv) (query : String)
    (candidates ranked : List SignalMatch) (mr mp : Nat) (ps : List Proposal)
    (hfb : fallback_proposals ranked mp = Except.ok ps) :
    (env.is_available = false →
       rank_signals env query candidates mr = (fallback_ranking candidates mr, "fallback") ∧
       generate_proposals env query ranked mp = Except.ok (ps, "fallback")) ∧
    (∀ e, env.respond (env.ranking_prompt query candidates mr) = Except.error e →
       rank_signals env query candidates mr = (fallback_ranking candidates mr, "fallback")) ∧
    (∀ t, env.respond (env.ranking_prompt query candidates mr) = Except.ok t →
       env.parse_ranking t = [] →
       rank_signals env query candidates mr = (fallback_ranking candidates mr, "fallback")) ∧
    (∀ e, env.respond (env.proposal_prompt query ranked mp) = Except.error e →
       generate_proposals env query ranked mp = Except.ok (ps, "fallback")) ∧
    (∀ t, env.respond (env.proposal_prompt query ranked mp) = Except.ok t →
       env.parse_proposals t ranked = [] →
       generate_proposals env query ranked mp = Except.ok (ps, "fallback")) := by
  refine ⟨?_, ?_, ?_, ?_, ?_⟩
  · intro hav
    constructor
    · unfold rank_signals
      simp [hav]
    · unfold generate_proposals
      simp [hav, hfb, Except.map]
  · intro e he
    unfold rank_signals
    rcases hav : env.is_available with _ | _
    · simp [hav]
    · simp [hav, he]
  · intro t ht hp
    unfold rank_signals
    rcases hav : env.is_available with _ | _
    · simp [hav]
    · simp [hav, ht, hp]
  · intro e he
    unfold generate_proposals
    rcases hav : env.is_available with _ | _
    · simp [hav, hfb, Except.map]
    · simp [hav, he, hfb, Except.map]
  · intro t ht hp
    unfold generate_proposals
    rcases hav : env.is_available with _ | _
    · simp [hav, hfb, Except.map]
    · simp [hav, ht, hp, hfb, Except.map]

/-- C6 witness: unavailable collaborator, empty candidate lists. -/
theorem C6_witness :
    rank_signals envDown ("q") [] 5 = (fallback_ranking [] 5, "fallback") ∧
    generate_proposals envDown ("q") [] 5 = Except.ok ([], "fallback") :=
  (C6_collaborator_failure_fallback envDown ("q") [] [] 5 5 [] rfl).1 rfl

/-! ## Helper lemmas: activation service -/

theorem process_activation_error_frame (env : ActEnv) (store : List ContextRow)
    (r : ActivationRequest) :
    ∀ e, (process_activation env store r).1 = Except.error e →
      (process_activation env store r).2 = store := by
  intro e he
  unfold process_activation at he ⊢
  generalize resolve_activation_target env r = R at he ⊢
  cases R with
  | error e1 => rfl
  | ok res =>
    obtain ⟨tid, tty, allowed⟩ := res
    dsimp only at he ⊢
    generalize intersect_platforms allowed r.platforms = I at he ⊢
    cases I with
    | error e2 => rfl
    | ok final =>
      dsimp only at he ⊢
      generalize final.isEmpty = b at he ⊢
      cases b with
      | true => rfl
      | false => simp at he

/-! ## Witness fixtures for the activation claims -/

/-- Activation environment over the dbW store. -/
def envW : ActEnv := { db := dbW, proposals_table := fun _ => none, now := 1000 }

/-- A request with neither target set. -/
def rqNone : ActivationRequest :=
  { segment_id := none, proposal_id := none, principal_id := "pr", platforms := ["P1"] }

/-- A request with both targets set. -/
def rqBoth : ActivationRequest :=
  { segment_id := some ("s1"), proposal_id := some ("proposal_001"),
    principal_id := "pr", platforms := ["P1"] }

/-- A segment request whose requested platforms miss the live set. -/
def rqBad : ActivationRequest :=
  { segment_id := some ("s1"), proposal_id := none, principal_id := "pr",
    platforms := ["P9"] }

/-! ## Claims C2, C5 -/

/-- C2: an activation request with neither segment id nor proposal id is
rejected with a ValidationError, and one with both set is also rejected;
in both cases the context store is returned unchanged — no activation
context is created. -/
theorem C2_reject_neither_or_both_targets (env : ActEnv) (store : List ContextRow)
    (r : ActivationRequest)
    (h : (r.segment_id = none ∧ r.proposal_id = none) ∨
         (∃ s t, r.segment_id = some s ∧ ¬ s = "" ∧ r.proposal_id = some t ∧ ¬ t = "")) :
    ∃ e, activate env store r = (Except.error e, store) := by
  rcases h with ⟨h1, h2⟩ | ⟨s, t, h1, hs, h2, ht⟩
  · refine ⟨"Either segment_id or proposal_id must be provided", ?_⟩
    unfold activate ActivationRequest.validate_activation_target
    rw [h1, h2]
    rfl
  · refine ⟨"Cannot provide both segment_id and proposal_id", ?_⟩
    unfold activate ActivationRequest.validate_activation_target
    rw [h1, h2]
    have hs1 : s.isEmpty = false := by
      rcases hE : s.isEmpty with _ | _
      · rfl
      · exact absurd ((String.isEmpty_iff s).mp hE) hs
    have ht1 : t.isEmpty = false := by
      rcases hE : t.isEmpty with _ | _
      · rfl
      · exact absurd ((String.isEmpty_iff t).mp hE) ht
    simp [optTruthy, hs1, ht1]

/-- C2 witness: both rejection shapes on concrete requests, store empty
before and after. -/
theorem C2_witness :
    (∃ e, activate envW [] rqNone = (Except.error e, [])) ∧
    (∃ e, activate envW [] rqBoth = (Except.error e, [])) :=
  ⟨C2_reject_neither_or_both_targets envW [] rqNone (Or.inl ⟨rfl, rfl⟩),
   C2_reject_neither_or_both_targets envW [] rqBoth
     (Or.inr ⟨"s1", "proposal_001", rfl, by decide, rfl, by decide⟩)⟩

/-- C5: with a non-empty requested platform list (guaranteed by the
request model's min_items=1), platform resolution returns exactly the set
intersection of allowed and requested platforms, errors out (ConflictError)
exactly when that intersection is empty, and any error of
process_activation leaves the context store unchanged (no activation
context persisted). -/
theorem C5_platform_intersection_conflict (env : ActEnv) (store : List ContextRow)
    (r : ActivationRequest) (available requested : List String)
    (hreq : requested ≠ []) :
    ((∃ x, x ∈ available ∧ x ∈ requested) →
       ∃ l, intersect_platforms available requested = Except.ok l ∧
         ∀ x, (x ∈ l ↔ x ∈ available ∧ x ∈ requested)) ∧
    ((∀ x, ¬ (x ∈ available ∧ x ∈ requested)) →
       ∃ e, intersect_platforms available requested = Except.error e) ∧
    (∀ e, (process_activation env store r).1 = Except.error e →
       (process_activation env store r).2 = store) := by
  have hreqE : requested.isEmpty = false := by
    rcases h : requested.isEmpty with _ | _
    · rfl
    · exact absurd (List.isEmpty_iff.mp h) hreq
  refine ⟨?_, ?_, process_activation_error_frame env store r⟩
  · rintro ⟨x, hx1, hx2⟩
    have hmem : x ∈ available.dedup ∩ requested :=
      List.mem_inter_iff.mpr ⟨List.mem_dedup.mpr hx1, hx2⟩
    have hne : (available.dedup ∩ requested).isEmpty = false := by
      rcases h : (available.dedup ∩ requested).isEmpty with _ | _
      · rfl
      · rw [List.isEmpty_iff.mp h] at hmem
        exact absurd hmem (List.not_mem_nil x)
    refine ⟨available.dedup ∩ requested, ?_, ?_⟩
    · simp [intersect_platforms, hreqE, hne]
    · intro y
      simp [List.mem_inter_iff, List.mem_dedup]
  · intro hno
    have hnil : available.dedup ∩ requested = [] := by
      rw [List.eq_nil_iff_forall_not_mem]
      intro y hy
      rcases List.mem_inter_iff.mp hy with ⟨hy1, hy2⟩
      exact hno y ⟨List.mem_dedup.mp hy1, hy2⟩
    exact ⟨"No overlap between available platforms and requested platforms",
      by simp [intersect_platforms, hreqE, hnil]⟩

/-- C5 witness: the spec scenario — allowed {P1,P2}, requested [P1,P4]
gives exactly {P1}; requested [P4] errors; and the conflicting concrete
request rqBad persists nothing. -/
theorem C5_witness :
    (∃ l, intersect_platforms ["P1", "P2"] ["P1", "P4"] = Except.ok l ∧
       ∀ x, (x ∈ l ↔ x ∈ ["P1", "P2"] ∧ x ∈ ["P1", "P4"])) ∧
    (∃ e, intersect_platforms ["P1", "P2"] ["P4"] = Except.error e) ∧
    (process_activation envW [] rqBad).2 = [] :=
  ⟨(C5_platform_intersection_conflict envW [] rqBad ["P1", "P2"] ["P1", "P4"]
      (by decide)).1 ⟨"P1", by decide, by decide⟩,
   (C5_platform_intersection_conflict envW [] rqBad ["P1", "P2"] ["P4"]
      (by decide)).2.1
     (by
       rintro x ⟨h1, h2⟩
       simp only [List.mem_cons, List.not_mem_nil, or_false] at h1 h2
       subst h2
       rcases h1 with h | h <;> exact absurd h (by decide)),
   (C5_platform_intersection_conflict envW [] rqBad ["P1"] ["P1"] (by decide)).2.2
     "No overlap between available platforms and requested platforms" (by rfl)⟩

/-! ## Helper lemmas: status simulator -/

theorem advanceRow_context_id (now : Int) (next : String) (r : ContextRow) :
    (advanceRow now next r).context_id = r.context_id := by
  unfold advanceRow
  split <;> rfl

theorem find?_map_advance (now : Int) (next : String) (aid : String)
    (store : List ContextRow) (row : ContextRow)
    (h : store.find? (fun r => r.context_id == aid) = some row) :
    (store.map (fun r => if r.context_id == aid then advanceRow now next r else r)).find?
      (fun r => r.context_id == aid) = some (advanceRow now next row) := by
  induction store with
  | nil => simp at h
  | cons hd tl ih =>
    rcases hpred : (hd.context_id == aid) with _ | _
    · simp only [List.find?_cons, hpred] at h
      have hhd : (if (hd.context_id == aid) = true then advanceRow now next hd else hd)
          = hd := by
        rw [hpred]
        simp
      simp only [List.map_cons]
      rw [hhd, List.find?_cons]
      rw [hpred]
      exact ih h
    · simp only [List.find?_cons, hpred] at h
      injection h with h
      subst h
      have hhd : (if (hd.context_id == aid) = true then advanceRow now next hd else hd)
          = advanceRow now next hd := by
        rw [hpred]
        simp
      simp only [List.map_cons]
      rw [hhd, List.find?_cons]
      rw [advanceRow_context_id, hpred]

theorem simulate_terminal_eq (now : Int) (store : List ContextRow) (aid : String)
    (row : ContextRow)
    (hfind : store.find? (fun r => r.context_id == aid) = some row)
    (hflow : status_flow row.status = some row.status) :
    simulate_status_transition now store aid =
      (some (get_activation_details row), store) := by
  unfold simulate_status_transition
  rw [hfind]
  dsimp only
  rw [hflow]
  dsimp only
  rw [beq_self_eq_true]
  simp

theorem simulate_advance_eq (now : Int) (store : List ContextRow) (aid : String)
    (row : ContextRow) (next : String)
    (hfind : store.find? (fun r => r.context_id == aid) = some row)
    (hflow : status_flow row.status = some next)
    (hne : (next == row.status) = false) :
    simulate_status_transition now store aid =
      (some (get_activation_details (advanceRow now next row)),
       store.map (fun r => if r.context_id == aid then advanceRow now next r else r)) := by
  unfold simulate_status_transition
  rw [hfind]
  dsimp only
  rw [hflow]
  dsimp only
  rw [hne]
  simp only [Bool.false_eq_true, if_false]
  rw [find?_map_advance now next aid store row hfind]

theorem length_filter_not_split (p : ContextRow → Bool) (l : List ContextRow) :
    (l.filter p).length + (l.filter (fun a => !p a)).length = l.length := by
  induction l with
  | nil => rfl
  | cons a t ih =>
    rcases h : p a with _ | _ <;> simp [List.filter_cons, h] <;> omega

/-! ## Witness fixtures for the lifecycle claims -/

/-- A pending activation context. -/
def rowP : ContextRow :=
  { context_id := "a1", principal_id := "pr", context_type := "activation",
    status := "pending", metadata := "m", created_at := 0, expires_at := 86400,
    completed_at := none }

/-- A completed activation context with its completion timestamp. -/
def rowC : ContextRow :=
  { rowP with context_id := "a2", status := "completed", completed_at := some 50 }

/-- An in-progress activation context. -/
def rowI : ContextRow := { rowP with context_id := "a3", status := "in_progress" }

/-- A retained (6-day-old at reap time 8d) activation context. -/
def rowNew : ContextRow :=
  { rowP with context_id := "a6", created_at := 2 * 86400, status := "failed" }

/-! ## Claims C3, C8 -/

/-- C3: the advance operation uses exactly the fixed table
pending→in_progress→completed with the three terminal states mapping to
themselves and nothing else in the table; advancing a terminal activation
returns the record unchanged with the store untouched (in particular an
already-completed activation keeps its completedAt); entering completed
(or failed) writes the completion timestamp to now, while the
pending→in_progress step leaves completedAt unmodified. -/
theorem C3_advance_status_machine (now : Int) (store : List ContextRow) (aid : String)
    (row : ContextRow)
    (hfind : store.find? (fun r => r.context_id == aid) = some row) :
    (status_flow ("pending") = some ("in_progress") ∧
     status_flow ("in_progress") = some ("completed") ∧
     status_flow ("completed") = some ("completed") ∧
     status_flow ("failed") = some ("failed") ∧
     status_flow ("expired") = some ("expired") ∧
     ∀ s, status_flow s ≠ none →
       s = "pending" ∨ s = "in_progress" ∨ s = "completed" ∨ s = "failed" ∨ s = "expired") ∧
    (row.status = "completed" ∨ row.status = "failed" ∨ row.status = "expired" →
       simulate_status_transition now store aid =
         (some (get_activation_details row), store) ∧
       (get_activation_details row).completed_at = row.completed_at) ∧
    (row.status = "pending" →
       simulate_status_transition now store aid =
         (some (get_activation_details (advanceRow now ("in_progress") row)),
          store.map (fun r =>
            if r.context_id == aid then advanceRow now ("in_progress") r else r)) ∧
       (advanceRow now ("in_progress") row).status = "in_progress" ∧
       (advanceRow now ("in_progress") row).completed_at = row.completed_at) ∧
    (row.status = "in_progress" →
       simulate_status_transition now store aid =
         (some (get_activation_details (advanceRow now ("completed") row)),
          store.map (fun r =>
            if r.context_id == aid then advanceRow now ("completed") r else r)) ∧
       (advanceRow now ("completed") row).status = "completed" ∧
       (advanceRow now ("completed") row).completed_at = some now) := by
  refine ⟨⟨rfl, rfl, rfl, rfl, rfl, ?_⟩, ?_, ?_, ?_⟩
  · intro s hs
    unfold status_flow at hs
    split_ifs at hs with h1 h2 h3 h4 h5
    · exact Or.inl (by simpa using h1)
    · exact Or.inr (Or.inl (by simpa using h2))
    · exact Or.inr (Or.inr (Or.inl (by simpa using h3)))
    · exact Or.inr (Or.inr (Or.inr (Or.inl (by simpa using h4))))
    · exact Or.inr (Or.inr (Or.inr (Or.inr (by simpa using h5))))
    · exact absurd rfl hs
  · intro hterm
    have hflow : status_flow row.status = some row.status := by
      rcases hterm with h | h | h <;> rw [h] <;> rfl
    exact ⟨simulate_terminal_eq now store aid row hfind hflow, rfl⟩
  · intro hpend
    refine ⟨?_, ?_, ?_⟩
    · exact simulate_advance_eq now store aid row ("in_progress") hfind
        (by rw [hpend]; rfl) (by rw [hpend]; decide)
    · unfold advanceRow
      simp
    · unfold advanceRow
      simp
  · intro hprog
    refine ⟨?_, ?_, ?_⟩
    · exact simulate_advance_eq now store aid row ("completed") hfind
        (by rw [hprog]; rfl) (by rw [hprog]; decide)
    · unfold advanceRow
      simp
    · unfold advanceRow
      simp

/-- C3 witness: a completed activation is a no-op with completedAt kept;
a pending one advances to in_progress without touching completedAt; an
in-progress one completes with completedAt = now. -/
theorem C3_witness :
    (simulate_status_transition 100 [rowC] "a2" =
       (some (get_activation_details rowC), [rowC]) ∧
     (get_activation_details rowC).completed_at = rowC.completed_at) ∧
    (simulate_status_transition 100 [rowP] "a1" =
       (some (get_activation_details (advanceRow 100 ("in_progress") rowP)),
        [rowP].map (fun r =>
          if r.context_id == "a1" then advanceRow 100 ("in_progress") r else r)) ∧
     (advanceRow 100 ("in_progress") rowP).status = "in_progress" ∧
     (advanceRow 100 ("in_progress") rowP).completed_at = rowP.completed_at) ∧
    (advanceRow 100 ("completed") rowI).completed_at = some 100 :=
  ⟨(C3_advance_status_machine 100 [rowC] "a2" rowC (by decide)).2.1 (Or.inl rfl),
   (C3_advance_status_machine 100 [rowP] "a1" rowP (by decide)).2.2.1 rfl,
   ((C3_advance_status_machine 100 [rowI] "a3" rowI (by decide)).2.2.2 rfl).2.2⟩

/-- C8: the reap operation removes exactly the contexts of type
"activation" created strictly before now minus the 7-day retention window
— the survival condition does not mention the status — and the returned
count plus the surviving rows account for the whole store. -/
theorem C8_reap_seven_day_retention (now : Int) (store : List ContextRow)
    (r : ContextRow) (hr : r ∈ store) :
    ((r ∈ (cleanup_expired_activations now store).2) ↔
       ¬ (r.context_type = "activation" ∧ r.created_at < now - 7 * 86400)) ∧
    (cleanup_expired_activations now store).1 +
      (cleanup_expired_activations now store).2.length = store.length := by
  constructor
  · show r ∈ store.filter (fun x => !reapPred now x) ↔ _
    rw [List.mem_filter]
    simp only [hr, true_and]
    unfold reapPred
    simp [not_and]
    tauto
  · exact length_filter_not_split (reapPred now) store

/-- C8 witness: at reap time 8 days, the 8-day-old context is removed and
the 2-day-old one survives although its status is terminal. -/
theorem C8_witness :
    ((rowNew ∈ (cleanup_expired_activations (8 * 86400) [rowC, rowNew]).2) ↔
       ¬ (rowNew.context_type = "activation" ∧
          rowNew.created_at < 8 * 86400 - 7 * 86400)) ∧
    (cleanup_expired_activations (8 * 86400) [rowC, rowNew]).1 = 1 ∧
    rowC ∉ (cleanup_expired_activations (8 * 86400) [rowC, rowNew]).2 :=
  ⟨(C8_reap_seven_day_retention (8 * 86400) [rowC, rowNew] rowNew (by decide)).1,
   by decide, by decide⟩
